import Mathlib

/-!
Verification of the HDB price-assistant core (router, price-estimation tool,
low-supply tool, affordability arithmetic) against its natural-language
specification.

The Python source is shallowly embedded:
* floats become `ℚ` (the source only performs field arithmetic and
  comparisons on them);
* SQL month values (ISO `YYYY-MM-01` strings, compared lexicographically,
  which agrees with chronological order) become `ℤ` month counts;
* storage, the regression model and the text-generation backend are the
  spec's external collaborators: each is a parameter, with `Except String`
  results modelling a raised exception versus a normal return;
* a Python function that may raise is embedded with result type
  `Except String _` (`.error` = an exception escaping the function); a
  function that catches everything at its boundary is embedded as a total
  function into a payload type;
* Python string processing is re-implemented structurally on `List Char`
  (ASCII inputs; `str.upper` is modelled by ASCII uppercasing, as in the
  data involved).
-/

/-! ## Character and string helpers (models of `str.upper`, `re.sub`, `str.strip`) -/

/-- ASCII uppercasing of one character, as Python `str.upper` acts on the
ASCII vocabulary used by the repository. -/
def char_up (c : Char) : Char :=
  if 'a' ≤ c && c ≤ 'z' then Char.ofNat (c.toNat - 32) else c

/-- Uppercase a string (model of `s.upper()` on ASCII data). -/
def str_up (s : String) : String := String.mk (s.toList.map char_up)

/-- Is `c` an ASCII letter A-Z or digit 0-9 (after uppercasing)? -/
def is_alnum_up (c : Char) : Bool := ('A' ≤ c && c ≤ 'Z') || ('0' ≤ c && c ≤ '9')

/-- Model of `LLM.router._norm`: `re.sub(r"[^A-Z0-9]+", "", s.upper())`. -/
def norm_str (s : String) : String :=
  String.mk ((s.toList.map char_up).filter is_alnum_up)

/-- Python `str.strip()` whitespace set. -/
def py_ws (c : Char) : Bool :=
  c = ' ' || c = '\t' || c = '\n' || c = '\r' || c = Char.ofNat 11 || c = Char.ofNat 12

/-- Model of Python `s.strip()`. -/
def py_strip (s : List Char) : List Char :=
  ((s.dropWhile py_ws).reverse.dropWhile py_ws).reverse

/-- Model of the regex class `\s` of Python `re` on ASCII text. -/
def py_space (c : Char) : Bool :=
  c = ' ' || c = '\t' || c = '\n' || c = '\r' || c = Char.ofNat 11 || c = Char.ofNat 12

/-- Does `pat` occur as a contiguous substring of `s`?  (Python `in`.) -/
def substr_in (pat s : List Char) : Bool :=
  (List.range (s.length + 1)).any (fun i => pat.isPrefixOf (s.drop i))

/-- Does `pat` occur in `s` starting exactly at index `i`? -/
def occurs_at (pat s : List Char) (i : ℕ) : Bool := pat.isPrefixOf (s.drop i)

/-- ASCII digit test. -/
def digitc (c : Char) : Bool := '0' ≤ c && c ≤ '9'

/-- Numeric value of an ASCII digit. -/
def digit_val (c : Char) : ℕ := c.toNat - 48

/-! ## Finance configuration and affordability arithmetic (`ml/infer.py`) -/

/-- Embedding of `ml.infer.CONF`: the process-wide finance configuration. -/
structure FinanceConf where
  discount : ℚ
  ltv : ℚ
  interest_pa : ℚ
  tenure_years : ℕ
  msr : ℚ
deriving DecidableEq

/-- The default configuration values from `ml/infer.py` (env defaults
`0.20 / 0.80 / 0.026 / 25 / 0.30`). -/
def default_conf : FinanceConf :=
  { discount := 1/5, ltv := 4/5, interest_pa := 13/500, tenure_years := 25, msr := 3/10 }

/-- Embedding of `ml.infer.monthly_payment`.  Division by zero follows the
Lean `ℚ` convention (`x / 0 = 0`); the claims under verification only use
positive tenures, where the Python code does not divide by zero either. -/
def monthly_payment (principal annual_rate : ℚ) (years : ℕ) : ℚ :=
  let r := annual_rate / 12
  let n := years * 12
  if r = 0 then principal / (n : ℚ)
  else principal * (r * (1 + r) ^ n) / ((1 + r) ^ n - 1)

/-- Embedding of `ml.infer.required_income`. -/
def required_income (price : ℚ) (conf : FinanceConf) : ℚ :=
  let loan := price * conf.ltv
  let pay := monthly_payment loan conf.interest_pa conf.tenure_years
  pay / conf.msr

/-- Transcription of the spec's wording of the payment formula (section
4.4.1: branch on `annual_rate == 0`, otherwise the standard amortized-loan
formula), used to compare the code against the spec for claim C4. -/
def monthly_payment_of_spec (principal annual_rate : ℚ) (years : ℕ) : ℚ :=
  if annual_rate = 0 then principal / ((years * 12 : ℕ) : ℚ)
  else
    let r := annual_rate / 12
    let n := years * 12
    principal * (r * (1 + r) ^ n) / ((1 + r) ^ n - 1)

/-- Transcription of the spec's wording of `required_income` =
`monthly_payment(price × LTV, rate, tenure) / MSR`, for claim C4. -/
def required_income_of_spec (price : ℚ) (conf : FinanceConf) : ℚ :=
  monthly_payment (price * conf.ltv) conf.interest_pa conf.tenure_years / conf.msr

/-! ## Storage rows and medians -/

/-- One `resale_transaction` row joined with its town name, as the tools
query it.  `month` is a month count (the SQL text dates order-embed into
`ℤ`); `resale_price` is `none` for a SQL NULL. -/
structure Txn where
  month : ℤ
  town : String
  flat_type : String
  flat_model : Option String
  storey_low : ℤ
  storey_high : ℤ
  floor_area_sqm : ℚ
  lease_commence_year : ℚ
  remaining_lease_months : ℚ
  resale_price : Option ℚ
deriving DecidableEq

/-- Insertion step for sorting rationals (used by `median`, matching the
sort performed inside pandas `median`). -/
def rat_insert (a : ℚ) : List ℚ → List ℚ
  | [] => [a]
  | b :: l => if a ≤ b then a :: b :: l else b :: rat_insert a l

/-- Sort a list of rationals ascending. -/
def rat_sort : List ℚ → List ℚ
  | [] => []
  | a :: l => rat_insert a (rat_sort l)

/-- Median in the pandas sense: middle element for odd length, mean of the
two middle elements for even length.  (Only ever applied to non-empty
lists by the embedded code; the `0` for `[]` is an unused total-function
default.) -/
def median (l : List ℚ) : ℚ :=
  let s := rat_sort l
  let n := s.length
  if n = 0 then 0
  else if n % 2 = 1 then s.getD (n / 2) 0
  else (s.getD (n / 2 - 1) 0 + s.getD (n / 2) 0) / 2

/-- Arithmetic mean (pandas `.mean()`), total with the `ℚ` convention
`x / 0 = 0` for the empty list. -/
def rat_mean (l : List ℚ) : ℚ := l.sum / (l.length : ℚ)

/-! ## Floor premiums (`LLM/tools.py`, `_floor_premiums`) -/

/-- The three floor-premium multipliers returned by `_floor_premiums`. -/
structure Premiums where
  low : ℚ
  mid : ℚ
  high : ℚ
deriving DecidableEq

/-- Python `premiums.get(b, 1.0)` on the `_floor_premiums` result dict,
whose keys are exactly `low`, `mid`, `high`. -/
def Premiums.get (p : Premiums) (b : String) : ℚ :=
  if b = "low" then p.low else if b = "mid" then p.mid
  else if b = "high" then p.high else 1

/-- One row of the premium query (`month, storey_low, storey_high,
resale_price` with `resale_price IS NOT NULL`). -/
structure PRow where
  month : ℤ
  lo : ℤ
  hi : ℤ
  price : ℚ
deriving DecidableEq

/-- Keep a transaction for the premium query iff its price is non-NULL. -/
def prow_of (t : Txn) : Option PRow :=
  t.resale_price.map (fun p => ⟨t.month, t.storey_low, t.storey_high, p⟩)

/-- The `_band` helper inside `_floor_premiums`: bucket a storey midpoint. -/
def band_of_mid (x : ℚ) : String :=
  if x ≤ 3 then "low" else if 10 ≤ x then "high" else "mid"

/-- Band of a premium row (storey midpoint = `(low + high) / 2`). -/
def prow_band (r : PRow) : String := band_of_mid (((r.lo : ℚ) + (r.hi : ℚ)) / 2)

/-- Model of `np.clip(x, 0.95, 1.10)`. -/
def clip95_110 (x : ℚ) : ℚ := max (19/20) (min x (11/10))

/-- Ratio of a band's median price to the overall median
(`ratios.get(band, 1.0)`: bands with no rows keep ratio 1). -/
def band_ratio (window : List PRow) (overall : ℚ) (b : String) : ℚ :=
  let g := (window.filter (fun r => prow_band r = b)).map (fun r => r.price)
  if g = [] then 1 else median g / overall

/-- Embedding of `_floor_premiums` for one segment's rows.  The source
first sorts by month; sorting is omitted here because every later step
(cutoff filter, medians) is permutation-invariant.  The `lru_cache` is
transparent for a pure function and is not modelled. -/
def floor_premiums (seg : List Txn) : Premiums :=
  match seg.filterMap prow_of with
  | [] => ⟨1, 1, 1⟩
  | r :: rs =>
    let maxM := rs.foldl (fun a x => max a x.month) r.month
    let window := (r :: rs).filter (fun x => decide (maxM - 24 ≤ x.month))
    let prices := window.map (fun x => x.price)
    let med := median prices
    let overall0 := if med = 0 then rat_mean prices else med
    let overall := if overall0 ≤ 0 then 1 else overall0
    ⟨clip95_110 (band_ratio window overall "low"),
     clip95_110 (band_ratio window overall "mid"),
     clip95_110 (band_ratio window overall "high")⟩

/-- Model of `_BAND_MAP.get(b, (4, 6))`. -/
def band_map (b : String) : ℤ × ℤ :=
  if b = "low" then (1, 3) else if b = "mid" then (4, 6)
  else if b = "high" then (10, 12) else (4, 6)

/-! ## Price-estimation tool (`LLM/tools.py`, `t_price_estimates`) -/

/-- Feature record assembled per band and handed to the model
(`rec` inside the band loop). -/
structure FeatureRec where
  month : ℤ
  town : String
  flat_type : String
  flat_model : String
  storey_low : ℤ
  storey_high : ℤ
  floor_area_sqm : ℚ
  lease_commence_year : ℤ
  remaining_lease_months : ℤ
deriving DecidableEq

/-- One response row of `t_price_estimates`; its fields are exactly the
keys the tool emits per band. -/
structure PriceRow where
  band : String
  resale_pred : ℚ
  bto_proxy : ℚ
  required_income : ℚ
  floor_premium_applied : ℚ
deriving DecidableEq

/-- The success payload of `t_price_estimates`.  `premiums` is the
response's premium mapping, as the ordered key/value list the source dict
literal produces. -/
structure PriceResponse where
  month : ℤ
  town : String
  flat_type : String
  rows : List PriceRow
  finance : FinanceConf
  premiums : List (String × ℚ)
deriving DecidableEq

/-- What `t_price_estimates` hands back to its caller: either the success
payload or the `error` payload.  Both are returned dicts; an exception
escaping the tool would be a different type and is impossible here by
construction, mirroring the source's catch-all `except`. -/
inductive PriceResult where
  | ok : PriceResponse → PriceResult
  | err : String → PriceResult
deriving DecidableEq

/-- Count of occurrences, for the modal flat model. -/
def count_eq (l : List String) (x : String) : ℕ := (l.filter (fun y => y = x)).length

/-- Modal value of the non-null flat models (`mode().iloc[0]`: pandas
returns the modal values sorted ascending, so ties resolve to the
smallest; an empty list falls back to `"IMPROVED"`). -/
def mode_str (l : List String) : String :=
  match l with
  | [] => "IMPROVED"
  | x :: xs =>
    xs.foldl
      (fun best c =>
        if count_eq (x :: xs) c > count_eq (x :: xs) best then c
        else if count_eq (x :: xs) c = count_eq (x :: xs) best && c < best then c
        else best)
      x

/-- Python `int()` on a rational: truncation toward zero. -/
def int_of (q : ℚ) : ℤ := Int.tdiv q.num (q.den : ℤ)

/-- Embedding of `_latest_month`: `SELECT MAX(month)` over the whole fact table, or the
wall-clock month (`today`, a parameter of the embedding) when the table is
empty. -/
def latest_month (txns : List Txn) (today : ℤ) : ℤ :=
  match txns with
  | [] => today
  | t :: ts => ts.foldl (fun a x => max a x.month) t.month

/-- Rows of the `(town, flat_type)` segment: the tool's SQL filter
`t.name = town.upper() AND r.flat_type = flat_type.upper()`. -/
def seg_rows (txns : List Txn) (town flat_type : String) : List Txn :=
  txns.filter (fun t => t.town == str_up town && t.flat_type == str_up flat_type)

/-- The feature record built for band `b` from the segment's median
numeric features and modal flat model.  The source's `med.get(…, default)`
defaults (90.0, 1990, 300) are dead when the segment is non-empty — the
columns always exist — so the medians are used directly. -/
def price_rec (seg : List Txn) (month : ℤ) (town flat_type : String) (b : String) :
    FeatureRec :=
  { month := month
    town := str_up town
    flat_type := str_up flat_type
    flat_model := str_up (mode_str (seg.filterMap (fun t => t.flat_model)))
    storey_low := (band_map b).1
    storey_high := (band_map b).2
    floor_area_sqm := median (seg.map (fun t => t.floor_area_sqm))
    lease_commence_year := int_of (median (seg.map (fun t => t.lease_commence_year)))
    remaining_lease_months := int_of (median (seg.map (fun t => t.remaining_lease_months))) }

/-- The row the band loop appends once the model returned `base`:
premium-adjusted resale estimate, BTO proxy, required income, and the
premium multiplier actually applied. -/
def price_row (prems : Premiums) (conf : FinanceConf) (b : String) (base : ℚ) : PriceRow :=
  let p := prems.get b
  let adj := base * p
  let bto := adj * (1 - conf.discount)
  { band := b
    resale_pred := adj
    bto_proxy := bto
    required_income := required_income bto conf
    floor_premium_applied := p }

/-- One iteration of the band loop: call the model (which may raise) and
build the row. -/
def band_step (predictF : FeatureRec → Except String ℚ) (prems : Premiums)
    (conf : FinanceConf) (seg : List Txn) (month : ℤ) (town flat_type : String)
    (b : String) : Except String PriceRow :=
  match predictF (price_rec seg month town flat_type b) with
  | .error e => .error e
  | .ok base => .ok (price_row prems conf b base)

/-- The band loop: accumulate rows, propagating the first exception —
the Python `for` loop with a raising call inside. -/
def mapExcept {α β : Type} (f : α → Except String β) : List α → Except String (List β)
  | [] => .ok []
  | a :: l =>
    match f a with
    | .error e => .error e
    | .ok b =>
      match mapExcept f l with
      | .error e => .error e
      | .ok bs => .ok (b :: bs)

/-- The body of `t_price_estimates`'s `try` block.  `storage` is the
storage collaborator (`.error` = the DB layer raised); `predictF` the
regression model; `today` the wall clock used only when storage is empty
and no month was given. -/
def run_price_flow (storage : Except String (List Txn)) (today : ℤ)
    (predictF : FeatureRec → Except String ℚ) (conf : FinanceConf)
    (town flat_type : String) (month? : Option ℤ) (bands : List String) :
    Except String PriceResponse :=
  match storage with
  | .error e => .error e
  | .ok txns =>
    let month := month?.getD (latest_month txns today)
    let seg := seg_rows txns town flat_type
    if seg = [] then .error ("No data for " ++ town ++ "/" ++ flat_type)
    else
      let prems := floor_premiums seg
      match mapExcept (band_step predictF prems conf seg month town flat_type) bands with
      | .error e => .error e
      | .ok rows =>
        .ok { month := month
              town := town
              flat_type := flat_type
              rows := rows
              finance := conf
              premiums := [("low", prems.low), ("mid", prems.mid), ("high", prems.high)] }

/-- Embedding of `t_price_estimates`: the whole flow runs inside a
catch-all `try`, so the tool is a total function into payloads — any
exception becomes the `err` payload carrying `str(e)`.  Telemetry is
fire-and-forget in the source (failures swallowed) and does not influence
the result, so it is not modelled. -/
def t_price_estimates (storage : Except String (List Txn)) (today : ℤ)
    (predictF : FeatureRec → Except String ℚ) (conf : FinanceConf)
    (town flat_type : String) (month? : Option ℤ) (bands : List String) : PriceResult :=
  match run_price_flow storage today predictF conf town flat_type month? bands with
  | .ok resp => .ok resp
  | .error e => .err e

/-! ## Low-supply tool (`LLM/tools.py`, `t_low_supply`) -/

/-- One ranked item `{town, flat_type, n}`. -/
structure SupplyItem where
  town : String
  flat_type : String
  n : ℕ
deriving DecidableEq

/-- The success payload of `t_low_supply`. -/
structure SupplyResponse where
  cutoff : ℤ
  flat_type : Option String
  items : List SupplyItem
deriving DecidableEq

/-- Return value of `t_low_supply`: success payload or `error` payload
(both returned dicts — the source wraps the whole flow in a catch-all). -/
inductive SupplyResult where
  | ok : SupplyResponse → SupplyResult
  | err : String → SupplyResult
deriving DecidableEq

/-- Insertion step for sorting items by count. -/
def item_insert (a : SupplyItem) : List SupplyItem → List SupplyItem
  | [] => [a]
  | b :: l => if a.n ≤ b.n then a :: b :: l else b :: item_insert a l

/-- Ascending sort by `n`, the model of `ORDER BY n ASC` plus
`df.sort_values("n")`.  Tie order among equal counts is unspecified in the
source (SQL group order, unstable pandas quicksort); any fixed sort is a
faithful model of the properties under verification, which are all
tie-agnostic. -/
def item_sort : List SupplyItem → List SupplyItem
  | [] => []
  | a :: l => item_insert a (item_sort l)

/-- Distinct elements in order of first occurrence (the grouping keys). -/
def first_occs : List (String × String) → List (String × String)
  | [] => []
  | x :: xs => x :: first_occs (xs.filter (fun y => y != x))
termination_by l => l.length
decreasing_by
  simp only [List.length_cons]
  exact Nat.lt_succ_of_le (List.length_filter_le _ _)

/-- Model of `GROUP BY town, flat_type` with `COUNT(*)`, over the rows that passed
the month cutoff. -/
def pair_counts (rows : List Txn) : List SupplyItem :=
  let pairs := rows.map (fun r => (r.town, r.flat_type))
  (first_occs pairs).map (fun p => ⟨p.1, p.2, (pairs.filter (fun q => q = p)).length⟩)

/-- Counts per pair over the trailing window `month ≥ cutoff`. -/
def low_supply_counts (txns : List Txn) (cutoff : ℤ) : List SupplyItem :=
  pair_counts (txns.filter (fun t => decide (cutoff ≤ t.month)))

/-- The optional flat-type filter.  Python `if flat_type:` is a truthiness
test, so an empty-string filter is a no-op, exactly like `None`. -/
def low_supply_filtered (counted : List SupplyItem) (flat_type? : Option String) :
    List SupplyItem :=
  match flat_type? with
  | none => counted
  | some ft =>
    if ft = "" then counted
    else counted.filter (fun it => str_up it.flat_type == str_up ft)

/-- The body of `t_low_supply`'s `try` block.  `now_month` is the
wall-clock month (`pd.Timestamp.utcnow()` floored to the month), so the
cutoff is `now_month - 12 * last_n_years`, calendar-accurate in month
space. -/
def run_low_supply (storage : Except String (List Txn)) (now_month : ℤ)
    (last_n_years : ℕ) (flat_type? : Option String) (top_k : ℕ) :
    Except String SupplyResponse :=
  match storage with
  | .error e => .error e
  | .ok txns =>
    let cutoff := now_month - 12 * (last_n_years : ℤ)
    let items :=
      (item_sort (low_supply_filtered (low_supply_counts txns cutoff) flat_type?)).take top_k
    .ok { cutoff := cutoff, flat_type := flat_type?, items := items }

/-- Embedding of `t_low_supply`: like the price tool, the whole flow runs
inside a catch-all `try`, so every failure is returned as the `err`
payload. -/
def t_low_supply (storage : Except String (List Txn)) (now_month : ℤ)
    (last_n_years : ℕ) (flat_type? : Option String) (top_k : ℕ) : SupplyResult :=
  match run_low_supply storage now_month last_n_years flat_type? top_k with
  | .ok resp => .ok resp
  | .error e => .err e

/-! ## Router (`LLM/router.py`) -/

/-- Arguments of a `price_estimates` route; `month` is present in the args
dict iff it is `some`. -/
structure PriceArgs where
  town : String
  flat_type : String
  month : Option String
deriving DecidableEq

/-- A route decision.  `price` and `lowSupply` are the two shapes the
deterministic router emits; `final` and `other` cover the JSON shapes an
LLM fallback parse can return verbatim. -/
inductive Route where
  | price : PriceArgs → Route
  | lowSupply : (last_n_years : ℕ) → (flat_type : Option String) → Route
  | final : (answer : String) → Route
  | other : Route
deriving DecidableEq

/-- Take one or two digits greedily (`\d{1,2}`) and read them as a number. -/
def take12 : List Char → Option ℕ
  | [] => none
  | [a] => if digitc a then some (digit_val a) else none
  | a :: b :: _ =>
    if digitc a then
      if digitc b then some (digit_val a * 10 + digit_val b)
      else some (digit_val a)
    else none

/-- Try to match the month regex of `_guess_month` at index `i`: literal
`20`, two digits, an optional single separator (dash, slash or space),
then one or two digits (greedy, with the regex's backtracking
semantics). -/
def month_at (s : List Char) (i : ℕ) : Option (List Char × ℕ) :=
  match s.drop i with
  | '2' :: '0' :: d1 :: d2 :: rest =>
    if digitc d1 && digitc d2 then
      match rest with
      | [] => none
      | c :: r =>
        if c = '-' || c = '/' || c = ' ' then
          (take12 r).map (fun m => (['2', '0', d1, d2], m))
        else
          (take12 (c :: r)).map (fun m => (['2', '0', d1, d2], m))
    else none
  | _ => none

/-- Two-digit zero-padded rendering (`f"{mm:02d}"` for `mm ≤ 99`). -/
def fmt2 (m : ℕ) : String := String.mk [Nat.digitChar (m / 10), Nat.digitChar (m % 10)]

/-- Embedding of `_guess_month`: `re.search` finds the leftmost match of
the pattern; a match whose month part is outside `1..12` makes the whole
function return `None` (the source does not keep searching). -/
def guess_month (text : String) : Option String :=
  let u := text.toList
  match (List.range (u.length + 1)).findSome? (fun i => month_at u i) with
  | none => none
  | some (y, mm) =>
    if 1 ≤ mm && mm ≤ 12 then some (String.mk y ++ "-" ++ fmt2 mm) else none

/-- First alternatives of the low-supply intent regex. -/
def intent_kw_a : List String := ["LIMITED", "FEW", "SCARCE"]

/-- Second alternatives of the low-supply intent regex. -/
def intent_kw_b : List String := ["LAUNCH", "BTO", "SUPPLY"]

/-- Embedding of the intent regex
`(limited|few|scarce).*(launch|bto|supply)|low\s*supply` under `re.I`:
either some A-keyword occurs and, later on the same line (`.` does not
match a newline), some B-keyword occurs; or `low`, optional whitespace,
`supply` occurs. -/
def intent_low_supply (text : String) : Bool :=
  let u := text.toList.map char_up
  let idx := List.range (u.length + 1)
  (idx.any fun i => idx.any fun j =>
    intent_kw_a.any fun a =>
      occurs_at a.toList u i && decide (i + a.length ≤ j) &&
      ((u.drop (i + a.length)).take (j - (i + a.length))).all (fun c => c != '\n') &&
      intent_kw_b.any fun b => occurs_at b.toList u j)
  ||
  (idx.any fun i => idx.any fun j =>
    occurs_at "LOW".toList u i && decide (i + 3 ≤ j) &&
    ((u.drop (i + 3)).take (j - (i + 3))).all py_space &&
    occurs_at "SUPPLY".toList u j)

/-- Embedding of `_best_match`.  The first pass is the source's exact-ish
containment test over the candidates in order; `fuzzy` is the
`difflib.get_close_matches(..., n=1, cutoff=0.75)` fallback, an external
black box here (pure, deterministic in the source). -/
def best_match (candidates : List String) (fuzzy : List String → String → Option String)
    (text : String) : Option String :=
  if text = "" then none
  else
    let tok := (norm_str text).toList
    match candidates.find? (fun c =>
        substr_in (norm_str c).toList tok || substr_in tok (norm_str c).toList) with
    | some c => some c
    | none => fuzzy candidates text

/-- Python truthiness of an optional string (`None` and `""` are falsy). -/
def truthy (o : Option String) : Bool :=
  match o with
  | none => false
  | some s => s != ""

/-- Python `x or default` on an optional string. -/
def py_or_str (o : Option String) (dflt : String) : String :=
  match o with
  | none => dflt
  | some s => if s = "" then dflt else s

/-- Embedding of `_deterministic_route`: month extraction, the low-supply
intent shortcut, then town/flat matching with the `ANG MO KIO` / `4 ROOM`
defaults; `none` signals "no match" to the fallback chain. -/
def det_route (towns flats : List String)
    (fuzzy : List String → String → Option String) (text : String) : Option Route :=
  let month := guess_month text
  if intent_low_supply text then
    some (.lowSupply 10 (best_match flats fuzzy text))
  else
    let town := best_match towns fuzzy text
    let flat := best_match flats fuzzy text
    if truthy town || truthy flat || truthy month then
      some (.price ⟨py_or_str town "ANG MO KIO", py_or_str flat "4 ROOM", month⟩)
    else none

/-- The stable default route of the LLM fallback. -/
def default_route : Route := .price ⟨"ANG MO KIO", "4 ROOM", none⟩

/-- Model of the slice between the first and last brace of `out` (via
`index` and `rindex`): `none` models the
`ValueError` from `index`/`rindex` when a brace is missing (caught by the
source's `except`). -/
def extract_braces (s : List Char) : Option (List Char) :=
  match s.findIdx? (fun c => c = Char.ofNat 123), s.reverse.findIdx? (fun c => c = Char.ofNat 125) with
  | some i, some k =>
    let j := s.length - 1 - k
    some ((s.drop i).take (j + 1 - i))
  | _, _ => none

/-- Embedding of `llm_route`.  `gen` is the result of the
text-generation call on the router prompt (`.error` = the backend
raised); `loads` models `json.loads` on the extracted slice (`none` = a
parse exception).  Note the source calls `generate` outside its
`try`, so a backend failure propagates — only the slicing and JSON
parsing are guarded by the stable default. -/
def llm_route (towns flats : List String)
    (fuzzy : List String → String → Option String)
    (gen : Except String String) (loads : String → Option Route)
    (text : String) : Except String Route :=
  match det_route towns flats fuzzy text with
  | some r => .ok r
  | none =>
    match gen with
    | .error e => .error e
    | .ok out =>
      let s := py_strip out.toList
      match extract_braces s with
      | none => .ok default_route
      | some sub =>
        match loads (String.mk sub) with
        | none => .ok default_route
        | some j => .ok j

/-! ## Concrete instances used by the witnesses -/

/-- A finance configuration with zero interest, full LTV, no discount and
unit MSR: it satisfies every validity hypothesis with closed-form proofs. -/
def conf0 : FinanceConf :=
  { discount := 0, ltv := 1, interest_pa := 0, tenure_years := 25, msr := 1 }

/-- One concrete storage row. -/
def txn0 : Txn :=
  { month := 0, town := "A", flat_type := "B", flat_model := some "X"
    storey_low := 4, storey_high := 6, floor_area_sqm := 90
    lease_commence_year := 1990, remaining_lease_months := 300
    resale_price := some 100 }

/-- A town vocabulary for the routing scenario. -/
def vocab_towns : List String := ["ANG MO KIO", "BISHAN"]

/-- A flat-type vocabulary for the routing scenario. -/
def vocab_flats : List String := ["3 ROOM", "4 ROOM"]

/-- The spec's routing scenario utterance. -/
def scenario_text : String := "Show prices for 4 ROOM in Ang Mo Kio for 2025-08"

/-- A trivial fuzzy matcher (never used on the paths exercised). -/
def fuzzy0 : List String → String → Option String := fun _ _ => none

/-- A JSON parse that always fails. -/
def loads0 : String → Option Route := fun _ => none


/-! ## Helper lemmas -/

theorem clip95_110_bounds (x : ℚ) : 19/20 ≤ clip95_110 x ∧ clip95_110 x ≤ 11/10 := by
  constructor
  · exact le_max_left _ _
  · exact max_le (by norm_num) (min_le_right _ _)

theorem floor_premiums_low_bounds (seg : List Txn) :
    19/20 ≤ (floor_premiums seg).low ∧ (floor_premiums seg).low ≤ 11/10 := by
  unfold floor_premiums
  cases seg.filterMap prow_of with
  | nil => norm_num
  | cons r rs => exact clip95_110_bounds _

theorem floor_premiums_mid_bounds (seg : List Txn) :
    19/20 ≤ (floor_premiums seg).mid ∧ (floor_premiums seg).mid ≤ 11/10 := by
  unfold floor_premiums
  cases seg.filterMap prow_of with
  | nil => norm_num
  | cons r rs => exact clip95_110_bounds _

theorem floor_premiums_high_bounds (seg : List Txn) :
    19/20 ≤ (floor_premiums seg).high ∧ (floor_premiums seg).high ≤ 11/10 := by
  unfold floor_premiums
  cases seg.filterMap prow_of with
  | nil => norm_num
  | cons r rs => exact clip95_110_bounds _

theorem premiums_get_pos (seg : List Txn) (b : String) :
    0 < (floor_premiums seg).get b := by
  unfold Premiums.get
  split_ifs
  · exact lt_of_lt_of_le (by norm_num) (floor_premiums_low_bounds seg).1
  · exact lt_of_lt_of_le (by norm_num) (floor_premiums_mid_bounds seg).1
  · exact lt_of_lt_of_le (by norm_num) (floor_premiums_high_bounds seg).1
  · norm_num

theorem monthly_payment_def (p annual_rate : ℚ) (years : ℕ) :
    monthly_payment p annual_rate years =
      if annual_rate / 12 = 0 then p / ((years * 12 : ℕ) : ℚ)
      else p * (annual_rate / 12 * (1 + annual_rate / 12) ^ (years * 12)) /
        ((1 + annual_rate / 12) ^ (years * 12) - 1) := rfl

theorem required_income_def (p : ℚ) (conf : FinanceConf) :
    required_income p conf =
      monthly_payment (p * conf.ltv) conf.interest_pa conf.tenure_years / conf.msr := rfl

theorem monthly_payment_zero_principal (annual_rate : ℚ) (years : ℕ) :
    monthly_payment 0 annual_rate years = 0 := by
  rw [monthly_payment_def]
  split_ifs <;> simp

theorem monthly_payment_lt (annual_rate : ℚ) (years : ℕ) (p1 p2 : ℚ)
    (hr : 0 ≤ annual_rate) (hy : 0 < years) (h : p1 < p2) :
    monthly_payment p1 annual_rate years < monthly_payment p2 annual_rate years := by
  rw [monthly_payment_def, monthly_payment_def]
  by_cases h0 : annual_rate / 12 = 0
  · rw [if_pos h0, if_pos h0]
    have hn : (0 : ℚ) < ((years * 12 : ℕ) : ℚ) := by
      have : 0 < years * 12 := by omega
      exact_mod_cast this
    gcongr
  · rw [if_neg h0, if_neg h0]
    have hrpos : 0 < annual_rate / 12 :=
      lt_of_le_of_ne (div_nonneg hr (by norm_num)) (Ne.symm h0)
    have hbase : (0 : ℚ) < 1 + annual_rate / 12 := by linarith
    have hpow : 1 < (1 + annual_rate / 12) ^ (years * 12) :=
      one_lt_pow₀ (by linarith) (by omega)
    have hden : (0 : ℚ) < (1 + annual_rate / 12) ^ (years * 12) - 1 := by linarith
    have hmul : p1 * (annual_rate / 12 * (1 + annual_rate / 12) ^ (years * 12)) <
        p2 * (annual_rate / 12 * (1 + annual_rate / 12) ^ (years * 12)) :=
      mul_lt_mul_of_pos_right h (mul_pos hrpos (pow_pos hbase _))
    gcongr

theorem required_income_lt (conf : FinanceConf) (p1 p2 : ℚ)
    (hltv : 0 < conf.ltv) (hr : 0 ≤ conf.interest_pa) (hy : 0 < conf.tenure_years)
    (hm : 0 < conf.msr) (h : p1 < p2) :
    required_income p1 conf < required_income p2 conf := by
  rw [required_income_def, required_income_def]
  have hpay := monthly_payment_lt conf.interest_pa conf.tenure_years
    (p1 * conf.ltv) (p2 * conf.ltv) hr hy (mul_lt_mul_of_pos_right h hltv)
  gcongr

theorem required_income_pos (conf : FinanceConf) (p : ℚ) (hp : 0 < p)
    (hltv : 0 < conf.ltv) (hr : 0 ≤ conf.interest_pa) (hy : 0 < conf.tenure_years)
    (hm : 0 < conf.msr) : 0 < required_income p conf := by
  have h0 : required_income 0 conf = 0 := by
    rw [required_income_def, zero_mul, monthly_payment_zero_principal, zero_div]
  have := required_income_lt conf 0 p hltv hr hy hm hp
  rwa [h0] at this

/-! ## Claim theorems -/

/-- Claim C2: every floor-premium multiplier lies in the closed interval
0.95 to 1.10, and a segment with no transaction rows yields exactly 1.0
for all three bands. -/
theorem floor_premiums_clamped (seg : List Txn) :
    (19/20 ≤ (floor_premiums seg).low ∧ (floor_premiums seg).low ≤ 11/10) ∧
    (19/20 ≤ (floor_premiums seg).mid ∧ (floor_premiums seg).mid ≤ 11/10) ∧
    (19/20 ≤ (floor_premiums seg).high ∧ (floor_premiums seg).high ≤ 11/10) ∧
    (seg = [] → floor_premiums seg = ⟨1, 1, 1⟩) :=
  ⟨floor_premiums_low_bounds seg, floor_premiums_mid_bounds seg,
   floor_premiums_high_bounds seg, fun h => by subst h; rfl⟩

/-- Witness for C2 at the concrete empty segment. -/
theorem floor_premiums_clamped_witness : floor_premiums [] = ⟨1, 1, 1⟩ :=
  (floor_premiums_clamped []).2.2.2 rfl

/-- Claim C3: for a fixed finance configuration with positive LTV,
non-negative annual rate, positive tenure and positive MSR,
`required_income` is strictly increasing in price. -/
theorem required_income_strict_mono (conf : FinanceConf) (p1 p2 : ℚ)
    (hltv : 0 < conf.ltv) (hr : 0 ≤ conf.interest_pa) (hy : 0 < conf.tenure_years)
    (hm : 0 < conf.msr) (h : p1 < p2) :
    required_income p1 conf < required_income p2 conf :=
  required_income_lt conf p1 p2 hltv hr hy hm h

/-- Witness for C3 at the zero-interest unit configuration and prices 0 < 1. -/
theorem required_income_strict_mono_witness :
    required_income 0 conf0 < required_income 1 conf0 :=
  required_income_strict_mono conf0 0 1 zero_lt_one le_rfl (by decide) zero_lt_one
    zero_lt_one

/-- Claim C4: `monthly_payment` equals the spec's amortized-loan formula
(with the zero-rate special case `principal / (years*12)`), and
`required_income(price)` equals
`monthly_payment(price * LTV, rate, tenure) / MSR`. -/
theorem affordability_matches_spec (p annual_rate : ℚ) (years : ℕ)
    (price : ℚ) (conf : FinanceConf) :
    monthly_payment p annual_rate years = monthly_payment_of_spec p annual_rate years ∧
    required_income price conf = required_income_of_spec price conf := by
  constructor
  · by_cases h : annual_rate = 0
    · simp [monthly_payment, monthly_payment_of_spec, h]
    · have h12 : ¬(annual_rate / 12 = 0) := by
        simp [div_eq_zero_iff, h]
      simp [monthly_payment, monthly_payment_of_spec, h, h12]
  · rfl

theorem price_row_band (prems : Premiums) (conf : FinanceConf) (b : String) (base : ℚ) :
    (price_row prems conf b base).band = b := rfl

theorem price_row_income (prems : Premiums) (conf : FinanceConf) (b : String) (base : ℚ) :
    (price_row prems conf b base).required_income =
      required_income (base * prems.get b * (1 - conf.discount)) conf := rfl

theorem price_row_premium_applied (prems : Premiums) (conf : FinanceConf) (b : String)
    (base : ℚ) : (price_row prems conf b base).floor_premium_applied = prems.get b := rfl

theorem price_row_resale (prems : Premiums) (conf : FinanceConf) (b : String) (base : ℚ) :
    (price_row prems conf b base).resale_pred = base * prems.get b := rfl

theorem mapExcept_ok {α β : Type} (f : α → Except String β) (v : α → β) (l : List α)
    (h : ∀ a ∈ l, f a = .ok (v a)) : mapExcept f l = .ok (l.map v) := by
  induction l with
  | nil => rfl
  | cons a l ih =>
    have ha := h a (List.mem_cons_self a l)
    have hl := ih (fun x hx => h x (List.mem_cons_of_mem a hx))
    simp [mapExcept, ha, hl]

theorem run_price_flow_ok_arm (txns : List Txn) (today : ℤ)
    (predictF : FeatureRec → Except String ℚ) (conf : FinanceConf)
    (town flat_type : String) (month? : Option ℤ) (bands : List String) :
    run_price_flow (.ok txns) today predictF conf town flat_type month? bands =
      (if seg_rows txns town flat_type = []
       then .error ("No data for " ++ town ++ "/" ++ flat_type)
       else
        match mapExcept
            (band_step predictF (floor_premiums (seg_rows txns town flat_type)) conf
              (seg_rows txns town flat_type) (month?.getD (latest_month txns today))
              town flat_type) bands with
        | .error e => .error e
        | .ok rows =>
          .ok { month := month?.getD (latest_month txns today)
                town := town
                flat_type := flat_type
                rows := rows
                finance := conf
                premiums := [("low", (floor_premiums (seg_rows txns town flat_type)).low),
                             ("mid", (floor_premiums (seg_rows txns town flat_type)).mid),
                             ("high", (floor_premiums (seg_rows txns town flat_type)).high)] }) :=
  rfl

theorem run_price_flow_ok_premiums (storage : Except String (List Txn)) (today : ℤ)
    (predictF : FeatureRec → Except String ℚ) (conf : FinanceConf)
    (town flat_type : String) (month? : Option ℤ) (bands : List String)
    (resp : PriceResponse)
    (h : run_price_flow storage today predictF conf town flat_type month? bands =
      Except.ok resp) : resp.premiums.map Prod.fst = ["low", "mid", "high"] := by
  cases storage with
  | error e => simp [run_price_flow] at h
  | ok txns =>
    rw [run_price_flow_ok_arm] at h
    by_cases hseg : seg_rows txns town flat_type = []
    · rw [if_pos hseg] at h
      simp at h
    · rw [if_neg hseg] at h
      split at h
      · simp at h
      · simp only [Except.ok.injEq] at h
        subst h
        rfl

/-- Claim C1: for every segment with rows in storage and every requested
band sequence, a successful `t_price_estimates` response has exactly one
row per requested band in the requested order (each row carrying the
`resale_pred`, `bto_proxy`, `required_income`, `floor_premium_applied`
fields of the `PriceRow` record), and `required_income > 0` whenever the
model's prediction for that band is positive.  `v` gives the model's
prediction per band. -/
theorem price_estimates_rows_per_band (txns : List Txn) (today : ℤ)
    (predictF : FeatureRec → Except String ℚ) (v : String → ℚ) (conf : FinanceConf)
    (town flat_type : String) (month? : Option ℤ) (bands : List String)
    (hseg : seg_rows txns town flat_type ≠ [])
    (hpred : ∀ b ∈ bands,
      predictF (price_rec (seg_rows txns town flat_type)
        (month?.getD (latest_month txns today)) town flat_type b) = .ok (v b))
    (hltv : 0 < conf.ltv) (hrate : 0 ≤ conf.interest_pa)
    (hten : 0 < conf.tenure_years) (hmsr : 0 < conf.msr) (hdisc : conf.discount < 1) :
    ∃ resp,
      t_price_estimates (.ok txns) today predictF conf town flat_type month? bands =
        .ok resp
      ∧ resp.rows.map (fun r => r.band) = bands
      ∧ ∀ r ∈ resp.rows, 0 < v r.band → 0 < r.required_income := by
  have hmap : mapExcept
      (band_step predictF (floor_premiums (seg_rows txns town flat_type)) conf
        (seg_rows txns town flat_type) (month?.getD (latest_month txns today))
        town flat_type) bands =
      .ok (bands.map (fun b =>
        price_row (floor_premiums (seg_rows txns town flat_type)) conf b (v b))) := by
    apply mapExcept_ok
    intro b hb
    simp [band_step, hpred b hb]
  refine ⟨{ month := month?.getD (latest_month txns today)
            town := town
            flat_type := flat_type
            rows := bands.map (fun b =>
              price_row (floor_premiums (seg_rows txns town flat_type)) conf b (v b))
            finance := conf
            premiums := [("low", (floor_premiums (seg_rows txns town flat_type)).low),
                         ("mid", (floor_premiums (seg_rows txns town flat_type)).mid),
                         ("high", (floor_premiums (seg_rows txns town flat_type)).high)] },
    ?_, ?_, ?_⟩
  · simp only [t_price_estimates, run_price_flow_ok_arm, if_neg hseg, hmap]
  · rw [List.map_map]
    simp [Function.comp_def, price_row_band]
  · intro r hr hpos
    rw [List.mem_map] at hr
    obtain ⟨b, hb, rfl⟩ := hr
    rw [price_row_band] at hpos
    rw [price_row_income]
    apply required_income_pos conf _ _ hltv hrate hten hmsr
    have hprem := premiums_get_pos (seg_rows txns town flat_type) b
    have hdisc1 : (0 : ℚ) < 1 - conf.discount := by linarith
    exact mul_pos (mul_pos hpos hprem) hdisc1

/-- Witness for C1: one stored row for segment (A, B), a model that always
predicts 300, and the zero-interest unit configuration. -/
theorem price_estimates_rows_per_band_witness :
    ∃ resp,
      t_price_estimates (.ok [txn0]) 0 (fun _ => .ok 300) conf0 "A" "B" (some 5)
        ["low", "mid", "high"] = .ok resp
      ∧ resp.rows.map (fun r => r.band) = ["low", "mid", "high"]
      ∧ ∀ r ∈ resp.rows, 0 < (300 : ℚ) → 0 < r.required_income :=
  price_estimates_rows_per_band [txn0] 0 (fun _ => .ok 300) (fun _ => 300) conf0
    "A" "B" (some 5) ["low", "mid", "high"] (by decide) (fun b _ => rfl)
    zero_lt_one le_rfl (by decide) zero_lt_one zero_lt_one

/-- Claim C7: the price-estimation tool never raises — it is total into
payloads — and each failure mode surfaces as the `err` payload carrying
the exception message: a storage exception, the missing-segment
`ValueError`, and a model exception. -/
theorem price_estimates_never_raises (today : ℤ) (conf : FinanceConf)
    (town flat_type : String) (month? : Option ℤ) (bands : List String) :
    (∀ predictF e,
      t_price_estimates (.error e) today predictF conf town flat_type month? bands =
        .err e)
    ∧ (∀ predictF txns, seg_rows txns town flat_type = [] →
        t_price_estimates (.ok txns) today predictF conf town flat_type month? bands =
          .err ("No data for " ++ town ++ "/" ++ flat_type))
    ∧ (∀ txns e b bs, seg_rows txns town flat_type ≠ [] →
        t_price_estimates (.ok txns) today (fun _ => .error e) conf town flat_type month?
          (b :: bs) = .err e) := by
  refine ⟨fun predictF e => rfl, fun predictF txns h => ?_, fun txns e b bs h => ?_⟩
  · simp only [t_price_estimates, run_price_flow_ok_arm, if_pos h]
  · simp only [t_price_estimates, run_price_flow_ok_arm, if_neg h, mapExcept, band_step]

/-- Witness for C7 at an empty storage table: the missing-segment error is
reported as a payload. -/
theorem price_estimates_never_raises_witness :
    t_price_estimates (.ok []) 0 (fun _ => .error "m") conf0 "A" "B" none [] =
      .err "No data for A/B" :=
  (price_estimates_never_raises 0 conf0 "A" "B" none []).2.1 (fun _ => .error "m") [] rfl

/-- Claim C10: a requested band name outside low, mid, high gets the mid
storey range 4..6 in its feature record but a floor-premium multiplier of
exactly 1 (reported in `floor_premium_applied`, and leaving the resale
prediction unscaled), while a successful response's premium mapping still
has exactly the keys low, mid, high. -/
theorem unknown_band_mid_default (b : String)
    (h1 : b ≠ "low") (h2 : b ≠ "mid") (h3 : b ≠ "high") :
    band_map b = (4, 6)
    ∧ (∀ seg month town flat_type,
        (price_rec seg month town flat_type b).storey_low = 4 ∧
        (price_rec seg month town flat_type b).storey_high = 6)
    ∧ (∀ prems : Premiums, prems.get b = 1)
    ∧ (∀ prems conf base,
        (price_row prems conf b base).floor_premium_applied = 1 ∧
        (price_row prems conf b base).resale_pred = base)
    ∧ (∀ storage today predictF conf town flat_type month? bands resp,
        t_price_estimates storage today predictF conf town flat_type month? bands =
          .ok resp →
        resp.premiums.map Prod.fst = ["low", "mid", "high"]) := by
  have hmap : band_map b = (4, 6) := by
    simp [band_map, h1, h2, h3]
  have hget : ∀ prems : Premiums, prems.get b = 1 := by
    intro prems
    simp [Premiums.get, h1, h2, h3]
  refine ⟨hmap, fun seg month town flat_type => ?_, hget,
    fun prems conf base => ?_, fun storage today predictF conf town flat_type month? bands resp h => ?_⟩
  · constructor
    · show (band_map b).1 = 4
      rw [hmap]
    · show (band_map b).2 = 6
      rw [hmap]
  · constructor
    · rw [price_row_premium_applied, hget]
    · rw [price_row_resale, hget, mul_one]
  · revert h
    simp only [t_price_estimates]
    cases hrun : run_price_flow storage today predictF conf town flat_type month? bands with
    | error e => intro h; exact absurd h (by simp)
    | ok resp2 =>
      intro h
      simp only [PriceResult.ok.injEq] at h
      subst h
      exact run_price_flow_ok_premiums storage today predictF conf town flat_type month?
        bands resp2 hrun

/-- Witness for C10 at the band name `penthouse`. -/
theorem unknown_band_mid_default_witness :
    band_map "penthouse" = (4, 6)
    ∧ Premiums.get ⟨1, 21/20, 1⟩ "penthouse" = 1
    ∧ (price_row ⟨1, 21/20, 1⟩ conf0 "penthouse" 300).resale_pred = 300 := by
  have h := unknown_band_mid_default "penthouse" (by decide) (by decide) (by decide)
  exact ⟨h.1, h.2.2.1 ⟨1, 21/20, 1⟩, (h.2.2.2.1 ⟨1, 21/20, 1⟩ conf0 300).2⟩

theorem mem_item_insert (a x : SupplyItem) (l : List SupplyItem) :
    x ∈ item_insert a l ↔ x = a ∨ x ∈ l := by
  induction l with
  | nil => simp [item_insert]
  | cons b l ih =>
    unfold item_insert
    split_ifs
    · simp
    · simp [ih]
      tauto

theorem mem_item_sort (x : SupplyItem) (l : List SupplyItem) :
    x ∈ item_sort l ↔ x ∈ l := by
  induction l with
  | nil => simp [item_sort]
  | cons a l ih => simp [item_sort, mem_item_insert, ih]

theorem item_insert_pairwise (a : SupplyItem) (l : List SupplyItem)
    (h : List.Pairwise (fun x y : SupplyItem => x.n ≤ y.n) l) :
    List.Pairwise (fun x y : SupplyItem => x.n ≤ y.n) (item_insert a l) := by
  induction l with
  | nil => simp [item_insert]
  | cons b l ih =>
    rw [List.pairwise_cons] at h
    unfold item_insert
    split_ifs with hab
    · rw [List.pairwise_cons]
      refine ⟨?_, List.pairwise_cons.mpr h⟩
      intro x hx
      rcases List.mem_cons.mp hx with rfl | hx
      · exact hab
      · exact le_trans hab (h.1 x hx)
    · rw [List.pairwise_cons]
      refine ⟨?_, ih h.2⟩
      intro x hx
      rcases (mem_item_insert a x l).mp hx with rfl | hx
      · omega
      · exact h.1 x hx

theorem item_sort_pairwise (l : List SupplyItem) :
    List.Pairwise (fun x y : SupplyItem => x.n ≤ y.n) (item_sort l) := by
  induction l with
  | nil => simp [item_sort]
  | cons a l ih => exact item_insert_pairwise a (item_sort l) ih

theorem item_insert_ne_nil (a : SupplyItem) (l : List SupplyItem) :
    item_insert a l ≠ [] := by
  cases l with
  | nil => simp [item_insert]
  | cons b l =>
    unfold item_insert
    split_ifs <;> simp

theorem item_sort_ne_nil (l : List SupplyItem) (h : l ≠ []) : item_sort l ≠ [] := by
  cases l with
  | nil => exact absurd rfl h
  | cons a l => exact item_insert_ne_nil a (item_sort l)

theorem first_occs_ne_nil (l : List (String × String)) (h : l ≠ []) :
    first_occs l ≠ [] := by
  cases l with
  | nil => exact absurd rfl h
  | cons a l => simp [first_occs]

theorem pair_counts_ne_nil (rows : List Txn) (h : rows ≠ []) : pair_counts rows ≠ [] := by
  unfold pair_counts
  intro hmap
  rw [List.map_eq_nil_iff] at hmap
  exact first_occs_ne_nil _ (by simp [h]) hmap

theorem take_one_length (l : List SupplyItem) (h : l ≠ []) : (l.take 1).length = 1 := by
  cases l with
  | nil => exact absurd rfl h
  | cons a l => rfl

/-- Claim C8: every successful low-supply result is sorted ascending by
transaction count, has at most `top_k` items, keeps only entries matching
a non-empty flat-type filter case-insensitively, and with `top_k = 1`
returns exactly one item when data exists after the cutoff. -/
theorem low_supply_ranking (txns : List Txn) (now_month : ℤ) (last_n_years : ℕ)
    (flat_type? : Option String) (top_k : ℕ) :
    ∃ resp,
      t_low_supply (.ok txns) now_month last_n_years flat_type? top_k = .ok resp
      ∧ List.Pairwise (fun a b : SupplyItem => a.n ≤ b.n) resp.items
      ∧ resp.items.length ≤ top_k
      ∧ (∀ ft, flat_type? = some ft → ft ≠ "" →
          ∀ it ∈ resp.items, str_up it.flat_type = str_up ft)
      ∧ (top_k = 1 →
          low_supply_filtered
            (low_supply_counts txns (now_month - 12 * (last_n_years : ℤ))) flat_type? ≠ [] →
          resp.items.length = 1)
      ∧ (top_k = 1 → flat_type? = none →
          (∃ t ∈ txns, now_month - 12 * (last_n_years : ℤ) ≤ t.month) →
          resp.items.length = 1) := by
  refine ⟨{ cutoff := now_month - 12 * (last_n_years : ℤ)
            flat_type := flat_type?
            items := (item_sort (low_supply_filtered
              (low_supply_counts txns (now_month - 12 * (last_n_years : ℤ)))
              flat_type?)).take top_k },
    rfl, ?_, ?_, ?_, ?_, ?_⟩
  · exact (item_sort_pairwise _).sublist (List.take_sublist _ _)
  · simp [List.length_take]
  · intro ft hft hne it hit
    have hsort : it ∈ item_sort (low_supply_filtered
        (low_supply_counts txns (now_month - 12 * (last_n_years : ℤ))) flat_type?) :=
      List.mem_of_mem_take hit
    rw [mem_item_sort] at hsort
    rw [hft] at hsort
    simp only [low_supply_filtered, if_neg hne] at hsort
    rw [List.mem_filter] at hsort
    exact eq_of_beq hsort.2
  · intro hk hne
    rw [hk, take_one_length]
    exact item_sort_ne_nil _ hne
  · intro hk hnone hex
    rw [hk, take_one_length]
    apply item_sort_ne_nil
    rw [hnone]
    unfold low_supply_filtered
    apply pair_counts_ne_nil
    obtain ⟨t, ht, hcut⟩ := hex
    have : t ∈ txns.filter (fun t => decide (now_month - 12 * (last_n_years : ℤ) ≤ t.month)) := by
      rw [List.mem_filter]
      exact ⟨ht, by simpa using hcut⟩
    exact List.ne_nil_of_mem this

/-- Witness for C8 at a one-row storage table and `top_k = 1`. -/
theorem low_supply_ranking_witness :
    ∃ resp,
      t_low_supply (.ok [txn0]) 0 10 none 1 = .ok resp
      ∧ List.Pairwise (fun a b : SupplyItem => a.n ≤ b.n) resp.items
      ∧ resp.items.length ≤ 1
      ∧ (∀ ft, (none : Option String) = some ft → ft ≠ "" →
          ∀ it ∈ resp.items, str_up it.flat_type = str_up ft)
      ∧ (1 = 1 →
          low_supply_filtered (low_supply_counts [txn0] (0 - 12 * (10 : ℤ))) none ≠ [] →
          resp.items.length = 1)
      ∧ (1 = 1 → (none : Option String) = none →
          (∃ t ∈ [txn0], 0 - 12 * (10 : ℤ) ≤ t.month) →
          resp.items.length = 1) :=
  low_supply_ranking [txn0] 0 10 none 1

/-- Claim C9 counterexample: a storage failure inside the low-supply tool
is not propagated — the source wraps the flow in the same catch-all as the
price tool and returns it as a reported error payload. -/
theorem low_supply_catches_errors_counterexample :
    t_low_supply (.error "database is locked") 0 10 none 8 =
      .err "database is locked" := rfl

/-- Claim C9 amended: like the price-estimation tool, the low-supply tool
converts any exception from its flow into a returned `error` payload. -/
theorem low_supply_reports_errors (e : String) (now_month : ℤ) (last_n_years : ℕ)
    (flat_type? : Option String) (top_k : ℕ) :
    t_low_supply (.error e) now_month last_n_years flat_type? top_k = .err e := rfl

/-- Claim C5 counterexample: when deterministic routing fails and the
text-generation backend itself raises, `llm_route` propagates the
exception instead of returning the stable default — the `generate` call
sits outside the `try` block. -/
theorem llm_route_backend_error_propagates :
    llm_route [] [] fuzzy0 (.error "backend down") loads0 "hello" =
      .error "backend down" := by
  have hdet : det_route [] [] fuzzy0 "hello" = none := by decide
  simp [llm_route, hdet]

/-- Claim C5 amended: when deterministic routing fails and the
text-generation call itself returns, `llm_route` never raises, and on any
parse failure of the generated text — no braces, or invalid JSON on the
extracted slice — it returns the stable default
`price_estimates(ANG MO KIO, 4 ROOM)`. -/
theorem llm_route_parse_failure_default (towns flats : List String)
    (fuzzy : List String → String → Option String) (loads : String → Option Route)
    (text out : String) (hdet : det_route towns flats fuzzy text = none) :
    (∃ r, llm_route towns flats fuzzy (.ok out) loads text = .ok r)
    ∧ (extract_braces (py_strip out.toList) = none →
        llm_route towns flats fuzzy (.ok out) loads text = .ok default_route)
    ∧ (∀ sub, extract_braces (py_strip out.toList) = some sub →
        loads (String.mk sub) = none →
        llm_route towns flats fuzzy (.ok out) loads text = .ok default_route) := by
  refine ⟨?_, fun h => ?_, fun sub h hl => ?_⟩
  · simp only [llm_route, hdet]
    cases h2 : extract_braces (py_strip out.toList) with
    | none => exact ⟨default_route, rfl⟩
    | some sub =>
      cases hl : loads (String.mk sub) with
      | none =>
        refine ⟨default_route, ?_⟩
        show (match loads (String.mk sub) with
              | none => (.ok default_route : Except String Route)
              | some j => .ok j) = .ok default_route
        rw [hl]
      | some j =>
        refine ⟨j, ?_⟩
        show (match loads (String.mk sub) with
              | none => (.ok default_route : Except String Route)
              | some j => .ok j) = .ok j
        rw [hl]
  · simp only [llm_route, hdet]
    rw [h]
  · simp only [llm_route, hdet]
    rw [h]
    show (match loads (String.mk sub) with
          | none => (.ok default_route : Except String Route)
          | some j => .ok j) = .ok default_route
    rw [hl]

/-- Witness for the amended C5: garbled brace-free output falls back to
the stable default. -/
theorem llm_route_parse_failure_default_witness :
    llm_route [] [] fuzzy0 (.ok "no json here") loads0 "hello" = .ok default_route :=
  (llm_route_parse_failure_default [] [] fuzzy0 loads0 "hello" "no json here"
    (by decide)).2.1 (by decide)

/-- Claim C6: when the low-supply intent does not match and a town, flat
type or month was found, the deterministic route is `price_estimates`
with town defaulting to ANG MO KIO and flat type to 4 ROOM when
unmatched, and with the month argument present exactly when a month token
was detected. -/
theorem det_route_price_defaults (towns flats : List String)
    (fuzzy : List String → String → Option String) (text : String)
    (hint : intent_low_supply text = false)
    (hfound : (truthy (best_match towns fuzzy text)
        || truthy (best_match flats fuzzy text)
        || truthy (guess_month text)) = true) :
    det_route towns flats fuzzy text =
      some (.price ⟨py_or_str (best_match towns fuzzy text) "ANG MO KIO",
                    py_or_str (best_match flats fuzzy text) "4 ROOM",
                    guess_month text⟩) := by
  simp [det_route, hint, hfound]

/-- Witness for C6: the spec's scenario utterance against a vocabulary
containing ANG MO KIO and 4 ROOM. -/
theorem det_route_price_defaults_witness :
    det_route vocab_towns vocab_flats fuzzy0 scenario_text =
      some (.price ⟨"ANG MO KIO", "4 ROOM", some "2025-08"⟩) :=
  (det_route_price_defaults vocab_towns vocab_flats fuzzy0 scenario_text
    (by decide) (by decide)).trans (by decide)
